import Mathlib

/-!
Shallow embedding of the `arm` class from `dvrk_python/src/dvrk/arm.py`.

Modelling conventions:
* Python floats are modelled as `ℚ`; numpy float64/int64 arrays as
  `List ℚ` / `List Int`.
* The shared mutable instance state of one `arm` object is `ArmSt`.
* Asynchronous ROS callbacks are modelled by an environment `Env`: each
  blocking `threading.Event.wait` pops one entry from the corresponding
  stream; `none` means the wait timed out with no notification, `some v`
  means notifications arrived before the wait ended and the last one
  carried payload `v` (the callback stores the payload and sets the event).
* Every observable side effect (publish on a ROS topic, latch clear/reset,
  wait, log, print) is recorded in an `Act` trace.
* Python exceptions are modelled with `Except PyErr`; functions that cannot
  raise are pure and return an `Out` record.
-/

/-- Python exception kinds raised by the code paths modelled here. -/
inductive PyErr where
  | typeError
  | valueError
  | indexError
  deriving DecidableEq, Repr

/-- PyKDL Vector: a 3-vector of scalars. -/
structure Vec3 where
  x : ℚ
  y : ℚ
  z : ℚ
  deriving DecidableEq, Repr

/-- Componentwise vector addition, as PyKDL Vector addition. -/
def Vec3.add (a b : Vec3) : Vec3 :=
  ⟨a.x + b.x, a.y + b.y, a.z + b.z⟩

/-- PyKDL Rotation: a 3x3 matrix of scalars. -/
structure Rot where
  r11 : ℚ
  r12 : ℚ
  r13 : ℚ
  r21 : ℚ
  r22 : ℚ
  r23 : ℚ
  r31 : ℚ
  r32 : ℚ
  r33 : ℚ
  deriving DecidableEq, Repr

/-- `Rotation.Identity()`. -/
def Rot.identity : Rot :=
  ⟨1, 0, 0, 0, 1, 0, 0, 0, 1⟩

/-- Apply a rotation matrix to a vector. -/
def Rot.apply (r : Rot) (v : Vec3) : Vec3 :=
  ⟨r.r11 * v.x + r.r12 * v.y + r.r13 * v.z,
   r.r21 * v.x + r.r22 * v.y + r.r23 * v.z,
   r.r31 * v.x + r.r32 * v.y + r.r33 * v.z⟩

/-- Rotation composition (matrix product). -/
def Rot.mul (a b : Rot) : Rot :=
  ⟨a.r11 * b.r11 + a.r12 * b.r21 + a.r13 * b.r31,
   a.r11 * b.r12 + a.r12 * b.r22 + a.r13 * b.r32,
   a.r11 * b.r13 + a.r12 * b.r23 + a.r13 * b.r33,
   a.r21 * b.r11 + a.r22 * b.r21 + a.r23 * b.r31,
   a.r21 * b.r12 + a.r22 * b.r22 + a.r23 * b.r32,
   a.r21 * b.r13 + a.r22 * b.r23 + a.r23 * b.r33,
   a.r31 * b.r11 + a.r32 * b.r21 + a.r33 * b.r31,
   a.r31 * b.r12 + a.r32 * b.r22 + a.r33 * b.r32,
   a.r31 * b.r13 + a.r32 * b.r23 + a.r33 * b.r33⟩

/-- PyKDL Frame: a rigid transform, rotation `m` plus translation `p`. -/
structure KFrame where
  m : Rot
  p : Vec3
  deriving DecidableEq, Repr

/-- PyKDL Frame composition: `F1 * F2 = Frame(M1 * M2, M1 * p2 + p1)`. -/
def KFrame.mul (a b : KFrame) : KFrame :=
  ⟨a.m.mul b.m, (a.m.apply b.p).add a.p⟩

/-- A numpy array that is either 0-dimensional (as created by
`numpy.array(0)` in `__init_arm`) or a 1-dimensional vector (after
`resize` in the joint-state callbacks). -/
inductive NDArr where
  | scalar : ℚ → NDArr
  | vec : List ℚ → NDArr
  deriving DecidableEq, Repr

/-- The mutable instance state of one `arm` object: tracked robot state,
the two event latches and their payload flags, and the cached desired
values needed by the modelled methods. -/
structure ArmSt where
  robot_state : String
  robot_state_event : Bool
  goal_reached : Bool
  goal_reached_event : Bool
  position_joint_desired : NDArr
  position_cartesian_desired : KFrame
  deriving DecidableEq, Repr

/-- The state of an `arm` object right after `__init_arm`, before any
notification has been received: state string `uninitialized`, both
latches clear, joint arrays 0-dimensional, desired pose the identity
`Frame()`. -/
def initArm : ArmSt :=
  { robot_state := "uninitialized"
    robot_state_event := false
    goal_reached := false
    goal_reached_event := false
    position_joint_desired := .scalar 0
    position_cartesian_desired := ⟨Rot.identity, ⟨0, 0, 0⟩⟩ }

/-- Environment: one entry per blocking wait.  `stateEvs` feeds waits on
the robot-state latch, `goalEvs` feeds waits on the goal-reached latch.
An exhausted stream means every further wait times out. -/
structure Env where
  stateEvs : List (Option String)
  goalEvs : List (Option Bool)
  deriving DecidableEq, Repr

/-- Pop the next robot-state wait outcome from the environment. -/
def popS (e : Env) : Option String × Env :=
  match e.stateEvs with
  | [] => (none, e)
  | o :: rest => (o, ⟨rest, e.goalEvs⟩)

/-- Pop the next goal-reached wait outcome from the environment. -/
def popG (e : Env) : Option Bool × Env :=
  match e.goalEvs with
  | [] => (none, e)
  | o :: rest => (o, ⟨e.stateEvs, rest⟩)

/-- Observable side effects of the arm code, in program order. -/
inductive Act where
  | pubRobotState (st : String)
  | pubPositionJoint (v : List ℚ)
  | pubGoalJoint (v : List ℚ)
  | pubPositionCartesian (p : KFrame)
  | pubGoalCartesian (p : KFrame)
  | clearStateEvent
  | clearGoalEvent
  | setGoalReachedFalse
  | waitState (tmo : Nat)
  | waitGoal (tmo : Nat)
  | logInfo (m : String)
  | logFatal (m : String)
  | printMsg (m : String)
  | printLenErr (got : Nat) (want : Nat)
  deriving DecidableEq, Repr

/-- Is this action an outgoing ROS publish? -/
def Act.isPublish : Act → Bool
  | .pubRobotState _ => true
  | .pubPositionJoint _ => true
  | .pubGoalJoint _ => true
  | .pubPositionCartesian _ => true
  | .pubGoalCartesian _ => true
  | _ => false

/-- Is this action a blocking wait on a latch? -/
def Act.isWait : Act → Bool
  | .waitState _ => true
  | .waitGoal _ => true
  | _ => false

/-- Is this action a fatal-level log? -/
def Act.isFatal : Act → Bool
  | .logFatal _ => true
  | _ => false

/-- Result of a non-raising call: return value, updated arm state,
remaining environment, and the emitted action trace. -/
structure Out (α : Type) where
  ret : α
  arm : ArmSt
  env : Env
  tr : List Act
  deriving DecidableEq, Repr

/-- The outgoing publishes contained in a trace. -/
def pubsOf (tr : List Act) : List Act :=
  tr.filter Act.isPublish

/-- The outgoing publishes of a possibly-raising call (an uncaught
exception aborts the call; we only record publishes of completed calls,
which is all the claims quantify over). -/
def pubsOfE {α : Type} : Except PyErr (Out α) → List Act
  | .error _ => []
  | .ok o => pubsOf o.tr

/-- `arm.__dvrk_set_state(state, timeout)`: if the tracked state already
equals `state`, return `True` immediately; otherwise clear the
robot-state latch, publish one `set_robot_state` command, wait up to
`timeout`, and return whether the tracked state now equals `state`
(logging fatal if not). -/
def dvrk_set_state (state : String) (tmo : Nat) (s : ArmSt) (e : Env) : Out Bool :=
  if s.robot_state = state then ⟨true, s, e, []⟩
  else
    let ev := (popS e).1
    let e1 := (popS e).2
    let s2 : ArmSt :=
      match ev with
      | none => { s with robot_state_event := false }
      | some st => { s with robot_state := st, robot_state_event := true }
    let tr := [Act.clearStateEvent, Act.pubRobotState state, Act.waitState tmo]
    if s2.robot_state = state then ⟨true, s2, e1, tr⟩
    else ⟨false, s2, e1, tr ++ [Act.logFatal ("failed to reach state " ++ state)]⟩

/-- The retry loop inside `arm.home`: while the counter is positive, wait
up to 20 s on the robot-state latch; on failure to see `DVRK_READY`
re-arm (clear) the latch and decrement; on success leave the loop. -/
def home_loop : Nat → ArmSt → Env → Out Unit
  | 0, s, e => ⟨(), s, e, []⟩
  | k + 1, s, e =>
    let ev := (popS e).1
    let e1 := (popS e).2
    let s1 : ArmSt :=
      match ev with
      | none => s
      | some st => { s with robot_state := st, robot_state_event := true }
    if s1.robot_state = "DVRK_READY" then ⟨(), s1, e1, [Act.waitState 20]⟩
    else
      let s2 := { s1 with robot_state_event := false }
      let o := home_loop k s2 e1
      ⟨(), o.arm, o.env,
        [Act.waitState 20, Act.clearStateEvent,
         Act.logInfo "waiting for state to be DVRK_READY"] ++ o.tr⟩

/-- `arm.home()`: clear the latch, publish the `Home` state request once,
run the bounded retry loop (budget 10), and log fatal (without raising)
if `DVRK_READY` was never observed. -/
def home (s : ArmSt) (e : Env) : Out Unit :=
  let s1 := { s with robot_state_event := false }
  let o := home_loop 10 s1 e
  let tr2 :=
    if o.arm.robot_state = "DVRK_READY" then []
    else [Act.logFatal "failed to reach state DVRK_READY"]
  ⟨(), o.arm, o.env,
    [Act.logInfo "start homing", Act.clearStateEvent, Act.pubRobotState "Home"]
      ++ o.tr ++ tr2 ++ [Act.logInfo "homing complete"]⟩

/-- `arm.shutdown()`: request the `DVRK_UNINITIALIZED` state with a 20 s
timeout, discarding the boolean result. -/
def shutdown (s : ArmSt) (e : Env) : Out Unit :=
  let o := dvrk_set_state "DVRK_UNINITIALIZED" 20 s e
  ⟨(), o.arm, o.env, [Act.logInfo "end homing"] ++ o.tr⟩

/-- `arm.__set_position_goal_cartesian_publish_and_wait(end_position)`:
clear the goal latch, reset the goal-reached flag to `False`, publish the
goal pose, wait up to 20 s, and return the goal-reached flag. -/
def set_position_goal_cartesian_publish_and_wait (p : KFrame) (s : ArmSt) (e : Env) :
    Out Bool :=
  let ev := (popG e).1
  let e1 := (popG e).2
  let s2 : ArmSt :=
    match ev with
    | none => { s with goal_reached_event := false, goal_reached := false }
    | some b => { s with goal_reached := b, goal_reached_event := true }
  let tr := [Act.clearGoalEvent, Act.setGoalReachedFalse,
             Act.pubGoalCartesian p, Act.waitGoal 20]
  if s2.goal_reached then
    ⟨true, s2, e1, tr ++ [Act.logInfo "completing set position goal cartesian publish and wait"]⟩
  else ⟨false, s2, e1, tr⟩

/-- `arm.__set_position_goal_joint_publish_and_wait(end_position)`: clear
the goal latch, reset the goal-reached flag to `False`, publish the goal
joint vector, wait up to 20 s, and return the goal-reached flag. -/
def set_position_goal_joint_publish_and_wait (v : List ℚ) (s : ArmSt) (e : Env) :
    Out Bool :=
  let ev := (popG e).1
  let e1 := (popG e).2
  let s2 : ArmSt :=
    match ev with
    | none => { s with goal_reached_event := false, goal_reached := false }
    | some b => { s with goal_reached := b, goal_reached_event := true }
  let tr := [Act.clearGoalEvent, Act.setGoalReachedFalse,
             Act.pubGoalJoint v, Act.waitGoal 20]
  if s2.goal_reached then
    ⟨true, s2, e1, tr ++ [Act.logInfo "completing set position goal joint publish and wait"]⟩
  else ⟨false, s2, e1, tr⟩

/-- `arm.__move_cartesian_goal(end_frame)`: ensure
`DVRK_POSITION_GOAL_CARTESIAN`, then publish the goal and wait,
propagating the helper's boolean result. -/
def move_cartesian_goal (f : KFrame) (s : ArmSt) (e : Env) : Out Bool :=
  let lg := [Act.logInfo "starting move cartesian goal"]
  let o := dvrk_set_state "DVRK_POSITION_GOAL_CARTESIAN" 5 s e
  if o.ret then
    let o2 := set_position_goal_cartesian_publish_and_wait f o.arm o.env
    ⟨o2.ret, o2.arm, o2.env, lg ++ o.tr ++ o2.tr⟩
  else ⟨false, o.arm, o.env, lg ++ o.tr⟩

/-- `arm.__move_cartesian_direct(end_frame)`: ensure
`DVRK_POSITION_CARTESIAN`, then publish the pose directly and return
`True` (no completion wait in direct mode). -/
def move_cartesian_direct (f : KFrame) (s : ArmSt) (e : Env) : Out Bool :=
  let lg := [Act.logInfo "starting move cartesian direct", Act.printMsg "end pose"]
  let o := dvrk_set_state "DVRK_POSITION_CARTESIAN" 5 s e
  if o.ret then
    ⟨true, o.arm, o.env,
      lg ++ o.tr ++ [Act.printMsg "inhere2", Act.pubPositionCartesian f,
                     Act.logInfo "completing move cartesian direct"]⟩
  else ⟨false, o.arm, o.env, lg ++ o.tr⟩

/-- A Python value appearing as an element of a list argument of the
cartesian move family. -/
inductive PyNum where
  | f : ℚ → PyNum
  | i : Int → PyNum
  | other : PyNum
  deriving DecidableEq, Repr

/-- `type(x) is float` for a list element. -/
def PyNum.isF : PyNum → Bool
  | .f _ => true
  | _ => false

/-- Numeric value of a list element (only evaluated behind the
`__check_input_type` guard, which admits only floats inside lists). -/
def PyNum.val : PyNum → ℚ
  | .f q => q
  | .i z => (z : ℚ)
  | .other => 0

/-- A Python value passed to the cartesian move family: a list, a float,
a PyKDL Vector, Rotation or Frame, or anything else. -/
inductive CartVal where
  | pylist : List PyNum → CartVal
  | pyfloat : ℚ → CartVal
  | vec : Vec3 → CartVal
  | rot : Rot → CartVal
  | frame : KFrame → CartVal
  | other : CartVal
  deriving DecidableEq, Repr

/-- `arm.__check_input_type(input, [list, float, Vector])`: a list is
accepted iff every element is a float; a bare float or Vector is
accepted; everything else is rejected (with an error print). -/
def checkTransOk : CartVal → Bool
  | .pylist l => l.all PyNum.isF
  | .pyfloat _ => true
  | .vec _ => true
  | _ => false

/-- `PyKDL.Frame(rotation, v)`: succeeds when `v` is a Vector and raises
`TypeError` otherwise (the PyKDL binding rejects non-Vector arguments,
e.g. a bare float that passed `__check_input_type`). -/
def mkFrameE (r : Rot) : CartVal → Except PyErr KFrame
  | .vec v => .ok ⟨r, v⟩
  | _ => .error .typeError

/-- `arm.move_frame(abs_frame, interpolate)`: type-check, then dispatch to
the goal or direct cartesian move according to `interpolate`. -/
def move_frame (a : CartVal) (interp : Bool) (s : ArmSt) (e : Env) : Out Unit :=
  let lg := [Act.logInfo "starting absolute move cartesian frame"]
  match a with
  | .frame f =>
    let o := if interp then move_cartesian_goal f s e else move_cartesian_direct f s e
    ⟨(), o.arm, o.env, lg ++ o.tr ++ [Act.logInfo "completing absolute move cartesian frame"]⟩
  | _ => ⟨(), s, e, lg ++ [Act.printMsg "input type error"]⟩

/-- `arm.dmove_frame(delta_frame, interpolate)`: type-check, compose the
delta with the desired pose (`delta * desired`), and move to the result. -/
def dmove_frame (a : CartVal) (interp : Bool) (s : ArmSt) (e : Env) : Out Unit :=
  let lg := [Act.logInfo "starting delta move cartesian frame"]
  match a with
  | .frame df =>
    let endf := KFrame.mul df s.position_cartesian_desired
    let o := move_frame (.frame endf) interp s e
    ⟨(), o.arm, o.env,
      lg ++ [Act.printMsg "end frame"] ++ o.tr
        ++ [Act.logInfo "completing delta move cartesian frame"]⟩
  | _ => ⟨(), s, e, lg ++ [Act.printMsg "input type error"]⟩

/-- `arm.move_translation(abs_translation, interpolate)`: type-check; a
list must additionally pass the length-3 check and is converted to a
Vector; the vector is paired with the desired rotation into a Frame and
passed to `move_frame`. -/
def move_translation (t : CartVal) (interp : Bool) (s : ArmSt) (e : Env) :
    Except PyErr (Out Unit) :=
  let lg := [Act.logInfo "starting absolute move cartesian translation"]
  let cont : CartVal → Except PyErr (Out Unit) := fun av =>
    match mkFrameE s.position_cartesian_desired.m av with
    | .error er => .error er
    | .ok f =>
      let o := move_frame (.frame f) interp s e
      .ok ⟨(), o.arm, o.env,
        lg ++ o.tr ++ [Act.logInfo "completing absolute move cartesian translation"]⟩
  if checkTransOk t then
    match t with
    | .pylist l =>
      if l.length = 3 then
        cont (.vec ⟨(l.getD 0 .other).val, (l.getD 1 .other).val, (l.getD 2 .other).val⟩)
      else .ok ⟨(), s, e, lg ++ [Act.printLenErr l.length 3]⟩
    | tv => cont tv
  else .ok ⟨(), s, e, lg ++ [Act.printMsg "input type error"]⟩

/-- `arm.dmove_translation(delta_translation, interpolate)`: type-check; a
list must additionally pass the length-3 check and is converted to a
Vector; the vector is paired with the identity rotation into a delta
Frame and passed to `dmove_frame`. -/
def dmove_translation (t : CartVal) (interp : Bool) (s : ArmSt) (e : Env) :
    Except PyErr (Out Unit) :=
  let lg := [Act.logInfo "starting delta move cartesian translation"]
  let cont : CartVal → List Act → Except PyErr (Out Unit) := fun av pre =>
    match mkFrameE Rot.identity av with
    | .error er => .error er
    | .ok df =>
      let o := dmove_frame (.frame df) interp s e
      .ok ⟨(), o.arm, o.env,
        lg ++ pre ++ [Act.printMsg "d frame"] ++ o.tr
          ++ [Act.logInfo "completing delta move cartesian translation"]⟩
  if checkTransOk t then
    match t with
    | .pylist l =>
      if l.length = 3 then
        cont (.vec ⟨(l.getD 0 .other).val, (l.getD 1 .other).val, (l.getD 2 .other).val⟩)
          [Act.printMsg "in here", Act.printMsg "d"]
      else .ok ⟨(), s, e, lg ++ [Act.printLenErr l.length 3]⟩
    | tv => cont tv []
  else .ok ⟨(), s, e, lg ++ [Act.printMsg "input type error"]⟩

/-- A Python value passed as an argument of the joint move family: a bare
float, a bare int, a numpy float64 array, a numpy int64 array, or
anything else (wrong type or wrong dtype). -/
inductive PyVal where
  | pf : ℚ → PyVal
  | pi : Int → PyVal
  | arrF : List ℚ → PyVal
  | arrI : List Int → PyVal
  | other : PyVal
  deriving DecidableEq, Repr

/-- `arm.get_joint_number()`: `len(self.__position_joint_desired)`.  On
the 0-dimensional array created at construction time, Python `len`
raises `TypeError` (len of unsized object). -/
def get_joint_number (s : ArmSt) : Except PyErr Nat :=
  match s.position_joint_desired with
  | .scalar _ => .error .typeError
  | .vec l => .ok l.length

/-- Truth test `bool(indices > n)` on a numpy comparison result, as in
`if ... or (indices > self.get_joint_number()):`.  A one-element array
collapses to its single boolean, an empty array is falsy (old numpy),
and a multi-element array raises `ValueError` (ambiguous truth value). -/
def npGtBool (js : List Int) (n : Nat) : Except PyErr Bool :=
  match js with
  | [] => .ok false
  | [j] => .ok (decide (j > (n : Int)))
  | _ => .error .valueError

/-- Resolve a Python/numpy index against an array of length `n`: negative
indices wrap once, out-of-range indices raise `IndexError`. -/
def pyIdx (n : Nat) (j : Int) : Except PyErr Nat :=
  if 0 ≤ j then
    if j < (n : Int) then .ok j.toNat else .error .indexError
  else
    if 0 ≤ j + (n : Int) then .ok (j + (n : Int)).toNat else .error .indexError

/-- `arr[j]` read with Python index semantics. -/
def pyGet (arr : List ℚ) (j : Int) : Except PyErr ℚ :=
  match pyIdx arr.length j with
  | .error er => .error er
  | .ok n => .ok (arr.getD n 0)

/-- `arr[j] = v` write with Python index semantics. -/
def pySet (arr : List ℚ) (j : Int) (v : ℚ) : Except PyErr (List ℚ) :=
  match pyIdx arr.length j with
  | .error er => .error er
  | .ok n => .ok (arr.set n v)

/-- The overlay loop of `move_joint_some`: for each position `i`,
`abs_pos_result[indices[i]] = abs_pos[i]`. -/
def overlaySet : List ℚ → List Int → List ℚ → Except PyErr (List ℚ)
  | arr, [], _ => .ok arr
  | arr, _ :: _, [] => .ok arr
  | arr, j :: js, v :: vs =>
    match pySet arr j v with
    | .error er => .error er
    | .ok arr2 => overlaySet arr2 js vs

/-- `arm.__move_joint_direct(end_joint)`: ensure `DVRK_POSITION_JOINT`,
then publish the joint vector directly and return `True`. -/
def move_joint_direct (v : List ℚ) (s : ArmSt) (e : Env) : Out Bool :=
  let lg := [Act.logInfo "starting move joint direct"]
  let o := dvrk_set_state "DVRK_POSITION_JOINT" 5 s e
  if o.ret then
    ⟨true, o.arm, o.env,
      lg ++ o.tr ++ [Act.pubPositionJoint v, Act.logInfo "completing move joint direct"]⟩
  else ⟨false, o.arm, o.env, lg ++ o.tr⟩

/-- `arm.__move_joint_goal(end_joint)`: ensure `DVRK_POSITION_GOAL_JOINT`,
then call the publish-and-wait helper.  NOTE (faithful to the source,
line 758): the helper's boolean result is discarded and the method
returns `True` whenever the state transition succeeded. -/
def move_joint_goal (v : List ℚ) (s : ArmSt) (e : Env) : Out Bool :=
  let lg := [Act.logInfo "starting move joint goal"]
  let o := dvrk_set_state "DVRK_POSITION_GOAL_JOINT" 5 s e
  if o.ret then
    let o2 := set_position_goal_joint_publish_and_wait v o.arm o.env
    ⟨true, o2.arm, o2.env, lg ++ o.tr ++ o2.tr⟩
  else ⟨false, o.arm, o.env, lg ++ o.tr⟩

/-- `arm.__move_joint(abs_joint, interpolate)`: dispatch to the goal or
direct joint move according to `interpolate`; the result is discarded. -/
def move_joint_impl (v : List ℚ) (interp : Bool) (s : ArmSt) (e : Env) : Out Unit :=
  let o := if interp then move_joint_goal v s e else move_joint_direct v s e
  ⟨(), o.arm, o.env,
    [Act.logInfo "starting absolute move joint vector"] ++ o.tr
      ++ [Act.logInfo "completing absolute move joint vector"]⟩

/-- `arm.move_joint(abs_pos, interpolate)`: reject non-float64-array
arguments with a print; compare the size against `get_joint_number()`
(which raises `TypeError` before the first joint-state notification);
then move. -/
def move_joint (a : PyVal) (interp : Bool) (s : ArmSt) (e : Env) :
    Except PyErr (Out Unit) :=
  match a with
  | .arrF l =>
    match s.position_joint_desired with
    | .scalar _ => .error .typeError
    | .vec d =>
      if l.length = d.length then .ok (move_joint_impl l interp s e)
      else .ok ⟨(), s, e, [Act.printMsg "abs_pos must be an array of size"]⟩
  | _ => .ok ⟨(), s, e, [Act.printMsg "abs_pos must be an array of floats"]⟩

/-- `arm.dmove_joint(delta_pos, interpolate)`: reject non-float64-array
arguments with a print; compare the size against `get_joint_number()`
(which raises `TypeError` before the first joint-state notification);
then move to `desired + delta`. -/
def dmove_joint (a : PyVal) (interp : Bool) (s : ArmSt) (e : Env) :
    Except PyErr (Out Unit) :=
  match a with
  | .arrF l =>
    match s.position_joint_desired with
    | .scalar _ => .error .typeError
    | .vec d =>
      if l.length = d.length then
        .ok (move_joint_impl (List.zipWith (· + ·) d l) interp s e)
      else .ok ⟨(), s, e, [Act.printMsg "delta_pos must be an array of size"]⟩
  | _ => .ok ⟨(), s, e, [Act.printMsg "delta_pos must be an array of floats"]⟩

/-- `arm.move_joint_some(abs_pos, indices, interpolate)`: after the two
dtype checks, the size check and the numpy truth-test comparison (which
calls `get_joint_number()` and can raise `TypeError` or `ValueError`),
the supplied values are overlaid on a ZERO vector
(`abs_pos_result = numpy.zeros(...)`, source line 713) and the single
result is sent through `__move_joint`. -/
def move_joint_some (a idx : PyVal) (interp : Bool) (s : ArmSt) (e : Env) :
    Except PyErr (Out Unit) :=
  let lg := [Act.logInfo "starting abs move joint index"]
  match a with
  | .arrF l =>
    match idx with
    | .arrI js =>
      match s.position_joint_desired with
      | .scalar _ => .error .typeError
      | .vec d =>
        let n := d.length
        if js.length = l.length then
          match npGtBool js n with
          | .error er => .error er
          | .ok true =>
            .ok ⟨(), s, e, lg ++ [Act.printMsg "size of delta_pos and indices must match and be less than"]⟩
          | .ok false =>
            if js.any (fun j => decide (j > (n : Int))) then
              .ok ⟨(), s, e, lg ++ [Act.printMsg "all indices must be less than"]⟩
            else
              match overlaySet (List.replicate n 0) js l with
              | .error er => .error er
              | .ok res =>
                let o := move_joint_impl res interp s e
                .ok ⟨(), o.arm, o.env, lg ++ o.tr⟩
        else
          .ok ⟨(), s, e, lg ++ [Act.printMsg "size of delta_pos and indices must match and be less than"]⟩
    | _ => .ok ⟨(), s, e, lg ++ [Act.printMsg "indices must be an array of integers"]⟩
  | _ => .ok ⟨(), s, e, lg ++ [Act.printMsg "delta_pos must be an array of floats"]⟩

/-- The read-modify-send loop of `dmove_joint_some`: for each position,
`abs_pos[indices[i]] = abs_pos[indices[i]] + delta_pos[i]` followed by a
call to `__move_joint` INSIDE the loop (source line 657). -/
def dmjs_loop (arr : List ℚ) (js : List Int) (vs : List ℚ) (interp : Bool)
    (s : ArmSt) (e : Env) : Except PyErr (Out Unit) :=
  match js, vs with
  | [], _ => .ok ⟨(), s, e, []⟩
  | _ :: _, [] => .ok ⟨(), s, e, []⟩
  | j :: js2, v :: vs2 =>
    match pyGet arr j with
    | .error er => .error er
    | .ok cur =>
      match pySet arr j (cur + v) with
      | .error er => .error er
      | .ok arr2 =>
        let o := move_joint_impl arr2 interp s e
        match dmjs_loop arr2 js2 vs2 interp o.arm o.env with
        | .error er => .error er
        | .ok o2 => .ok ⟨(), o2.arm, o2.env, o.tr ++ o2.tr⟩

/-- `arm.dmove_joint_some(delta_pos, indices, interpolate)`: after the
same checks as `move_joint_some`, copy the desired joint vector and run
the read-modify-send loop, publishing once per updated index. -/
def dmove_joint_some (a idx : PyVal) (interp : Bool) (s : ArmSt) (e : Env) :
    Except PyErr (Out Unit) :=
  let lg := [Act.logInfo "starting delta move joint index"]
  match a with
  | .arrF l =>
    match idx with
    | .arrI js =>
      match s.position_joint_desired with
      | .scalar _ => .error .typeError
      | .vec d =>
        let n := d.length
        if js.length = l.length then
          match npGtBool js n with
          | .error er => .error er
          | .ok true =>
            .ok ⟨(), s, e, lg ++ [Act.printMsg "size of delta_pos and indices must match and be less than"]⟩
          | .ok false =>
            if js.any (fun j => decide (j > (n : Int))) then
              .ok ⟨(), s, e, lg ++ [Act.printMsg "all indices must be less than"]⟩
            else
              match dmjs_loop d js l interp s e with
              | .error er => .error er
              | .ok o => .ok ⟨(), o.arm, o.env, lg ++ o.tr⟩
        else
          .ok ⟨(), s, e, lg ++ [Act.printMsg "size of delta_pos and indices must match and be less than"]⟩
    | _ => .ok ⟨(), s, e, lg ++ [Act.printMsg "indices must be an array of integers"]⟩
  | _ => .ok ⟨(), s, e, lg ++ [Act.printMsg "delta_pos must be an array of floats"]⟩

/-- Exact-type test `type(abs_pos) is float and type(indices) is int`
guarding `move_joint_one` and `dmove_joint_one`. -/
def isFloatIntPair : PyVal → PyVal → Bool
  | .pf _, .pi _ => true
  | _, _ => false

/-- `arm.move_joint_one(abs_pos, indices, interpolate)`: only when the
position is exactly a Python float and the index exactly a Python int,
wrap them in one-element arrays and call `move_joint_some`; otherwise
fall through and return `None` with no print, no log and no send. -/
def move_joint_one (a idx : PyVal) (interp : Bool) (s : ArmSt) (e : Env) :
    Except PyErr (Out Unit) :=
  match a, idx with
  | .pf q, .pi k => move_joint_some (.arrF [q]) (.arrI [k]) interp s e
  | _, _ => .ok ⟨(), s, e, []⟩

/-- `arm.dmove_joint_one(delta_pos, indices, interpolate)`: only when the
delta is exactly a Python float and the index exactly a Python int, wrap
them in one-element arrays and call `dmove_joint_some`; otherwise fall
through and return `None` with no print, no log and no send. -/
def dmove_joint_one (a idx : PyVal) (interp : Bool) (s : ArmSt) (e : Env) :
    Except PyErr (Out Unit) :=
  match a, idx with
  | .pf q, .pi k => dmove_joint_some (.arrF [q]) (.arrI [k]) interp s e
  | _, _ => .ok ⟨(), s, e, []⟩

/-- A concrete arm state used to exercise the joint-indexed partial
moves: two joints, desired joint vector `[1, 1]`, already in the
goal-joint state. -/
def c3Arm : ArmSt :=
  { robot_state := "DVRK_POSITION_GOAL_JOINT", robot_state_event := false,
    goal_reached := false, goal_reached_event := false,
    position_joint_desired := .vec [1, 1],
    position_cartesian_desired := ⟨Rot.identity, ⟨0, 0, 0⟩⟩ }

/-! ### Helper lemmas -/

/-- If the tracked state already equals the request, `__dvrk_set_state`
is a pure no-op returning `True`. -/
theorem dvrk_set_state_noop (t : String) (tmo : Nat) (s : ArmSt) (e : Env)
    (h : s.robot_state = t) : dvrk_set_state t tmo s e = ⟨true, s, e, []⟩ := by
  simp [dvrk_set_state, h]

/-- The joint publish-and-wait helper publishes exactly the goal joint
command, whatever the environment does. -/
theorem paw_joint_pubs (v : List ℚ) (s : ArmSt) (e : Env) :
    (set_position_goal_joint_publish_and_wait v s e).tr.filter Act.isPublish
      = [Act.pubGoalJoint v] := by
  unfold set_position_goal_joint_publish_and_wait
  cases hev : (popG e).1 with
  | none => simp [hev, Act.isPublish]
  | some b => cases b <;> simp [hev, Act.isPublish]

/-- The cartesian publish-and-wait helper publishes exactly the goal pose
command, whatever the environment does. -/
theorem paw_cart_pubs (p : KFrame) (s : ArmSt) (e : Env) :
    (set_position_goal_cartesian_publish_and_wait p s e).tr.filter Act.isPublish
      = [Act.pubGoalCartesian p] := by
  unfold set_position_goal_cartesian_publish_and_wait
  cases hev : (popG e).1 with
  | none => simp [hev, Act.isPublish]
  | some b => cases b <;> simp [hev, Act.isPublish]

/-- In goal mode, starting from the goal-joint state, `__move_joint`
publishes exactly one goal joint command carrying its argument. -/
theorem move_joint_impl_pubs_in_goal_state (v : List ℚ) (s : ArmSt) (e : Env)
    (hs : s.robot_state = "DVRK_POSITION_GOAL_JOINT") :
    (move_joint_impl v true s e).tr.filter Act.isPublish = [Act.pubGoalJoint v] := by
  unfold move_joint_impl move_joint_goal
  rw [dvrk_set_state_noop _ 5 s e hs]
  simp [List.filter_append, paw_joint_pubs, Act.isPublish]

/-! ### Claim theorems -/

/-- Claim C1 (code bug exhibit).  The claim says no exception ever leaves
the public command surface, but `move_joint_some` evaluates
`indices > self.get_joint_number()` in a boolean context: with a valid
two-element `int64` index array on a six-joint arm this multi-element
numpy comparison raises `ValueError` out of the public method instead of
reporting failure by boolean return and logging. -/
theorem c1_move_joint_some_multi_index_raises :
    move_joint_some (.arrF [1, 2]) (.arrI [0, 1]) true
      { robot_state := "DVRK_READY", robot_state_event := false,
        goal_reached := false, goal_reached_event := false,
        position_joint_desired := .vec [0, 0, 0, 0, 0, 0],
        position_cartesian_desired := ⟨Rot.identity, ⟨0, 0, 0⟩⟩ }
      ⟨[], []⟩
      = .error .valueError := by
  rfl

/-- Claim C2 (code bug exhibit).  The claim says a goal-mode move returns
success iff the goal-reached flag is true when the wait ends.  For the
joint path the code violates this: with the arm already in
`DVRK_POSITION_GOAL_JOINT` and an environment in which the goal wait
times out, the publish-and-wait helper correctly returns `False`, yet
`__move_joint_goal` discards that result and returns `True`, while the
goal-reached flag is still false. -/
theorem c2_move_joint_goal_true_despite_timeout :
    (move_joint_goal [1]
        { robot_state := "DVRK_POSITION_GOAL_JOINT", robot_state_event := false,
          goal_reached := false, goal_reached_event := false,
          position_joint_desired := .vec [0, 0, 0, 0, 0, 0],
          position_cartesian_desired := ⟨Rot.identity, ⟨0, 0, 0⟩⟩ }
        ⟨[], [none]⟩).ret = true
  ∧ (move_joint_goal [1]
        { robot_state := "DVRK_POSITION_GOAL_JOINT", robot_state_event := false,
          goal_reached := false, goal_reached_event := false,
          position_joint_desired := .vec [0, 0, 0, 0, 0, 0],
          position_cartesian_desired := ⟨Rot.identity, ⟨0, 0, 0⟩⟩ }
        ⟨[], [none]⟩).arm.goal_reached = false
  ∧ (set_position_goal_joint_publish_and_wait [1]
        { robot_state := "DVRK_POSITION_GOAL_JOINT", robot_state_event := false,
          goal_reached := false, goal_reached_event := false,
          position_joint_desired := .vec [0, 0, 0, 0, 0, 0],
          position_cartesian_desired := ⟨Rot.identity, ⟨0, 0, 0⟩⟩ }
        ⟨[], [none]⟩).ret = false := by
  refine ⟨rfl, rfl, rfl⟩

/-- Claim C9.  Before the first joint-state notification the cached joint
arrays are 0-dimensional, so `get_joint_number()` raises `TypeError`
(len of an unsized object), and every joint-space move that reaches its
size check (`move_joint`, `dmove_joint`, `move_joint_some`,
`dmove_joint_some` with well-typed array arguments) propagates that
`TypeError` instead of returning a count or a validation failure. -/
theorem c9_unsized_arrays_raise_type_error :
    get_joint_number initArm = .error .typeError
  ∧ (∀ (l : List ℚ) (interp : Bool) (e : Env),
       move_joint (.arrF l) interp initArm e = .error .typeError)
  ∧ (∀ (l : List ℚ) (interp : Bool) (e : Env),
       dmove_joint (.arrF l) interp initArm e = .error .typeError)
  ∧ (∀ (l : List ℚ) (js : List Int) (interp : Bool) (e : Env),
       move_joint_some (.arrF l) (.arrI js) interp initArm e = .error .typeError)
  ∧ (∀ (l : List ℚ) (js : List Int) (interp : Bool) (e : Env),
       dmove_joint_some (.arrF l) (.arrI js) interp initArm e = .error .typeError) := by
  refine ⟨rfl, ?_, ?_, ?_, ?_⟩ <;> intros <;> rfl

/-- Claim C10.  When the position argument is not exactly a Python
`float` or the index argument is not exactly a Python `int`,
`move_joint_one` and `dmove_joint_one` fall through their guard and
return with no outgoing command, no print and no log at all. -/
theorem c10_joint_one_silent_no_op (a b : PyVal) (interp : Bool) (s : ArmSt) (e : Env)
    (h : isFloatIntPair a b = false) :
    move_joint_one a b interp s e = .ok ⟨(), s, e, []⟩
  ∧ dmove_joint_one a b interp s e = .ok ⟨(), s, e, []⟩ := by
  cases a <;> cases b <;> first
    | exact ⟨rfl, rfl⟩
    | simp [isFloatIntPair] at h

/-- Witness for C10: an integer position `2` and index `0` (the pair is
not float/int), on the freshly constructed arm. -/
theorem c10_joint_one_silent_no_op_witness :
    isFloatIntPair (.pi 2) (.pi 0) = false
  ∧ move_joint_one (.pi 2) (.pi 0) true initArm ⟨[], []⟩
      = .ok ⟨(), initArm, ⟨[], []⟩, []⟩ :=
  ⟨by decide, (c10_joint_one_silent_no_op (.pi 2) (.pi 0) true initArm ⟨[], []⟩ (by decide)).1⟩

/-- Claim C5.  `__dvrk_set_state`: when the tracked state already equals
the request the call returns `True` at once with no action at all (last
conjunct); otherwise it clears the latch, publishes exactly one
`set_robot_state` command and waits up to the timeout (second and third
conjuncts), and in every case the boolean result equals whether the
tracked state then equals the request (first conjunct). -/
theorem c5_set_state_idempotent_protocol (t : String) (tmo : Nat) (s : ArmSt) (e : Env) :
    (dvrk_set_state t tmo s e).ret
        = decide ((dvrk_set_state t tmo s e).arm.robot_state = t)
  ∧ (dvrk_set_state t tmo s e).tr.filter Act.isPublish
        = (if s.robot_state = t then [] else [Act.pubRobotState t])
  ∧ (dvrk_set_state t tmo s e).tr.take 3
        = (if s.robot_state = t then []
           else [Act.clearStateEvent, Act.pubRobotState t, Act.waitState tmo])
  ∧ (if s.robot_state = t then dvrk_set_state t tmo s e else Out.mk true s e [])
        = Out.mk true s e [] := by
  by_cases h : s.robot_state = t
  · simp [dvrk_set_state, h]
  · cases hev : (popS e).1 with
    | none => simp [dvrk_set_state, h, hev, Act.isPublish]
    | some st =>
      by_cases h2 : st = t <;>
        simp [dvrk_set_state, h, hev, h2, Act.isPublish]

/-- Claim C6.  In both goal-mode publish-and-wait helpers, clearing the
goal latch and resetting the goal-reached flag to false occur strictly
before the goal command is published (the trace begins
clear-latch, reset-flag, publish); consequently a signal and flag left
over from a prior request can never satisfy the new wait: starting with
`goal_reached = true` and the latch set, a timed-out wait still yields
`False`. -/
theorem c6_goal_latch_reset_precedes_publish (p : KFrame) (v : List ℚ) (s : ArmSt) (e : Env) :
    (set_position_goal_cartesian_publish_and_wait p s e).tr.take 3
        = [Act.clearGoalEvent, Act.setGoalReachedFalse, Act.pubGoalCartesian p]
  ∧ (set_position_goal_joint_publish_and_wait v s e).tr.take 3
        = [Act.clearGoalEvent, Act.setGoalReachedFalse, Act.pubGoalJoint v]
  ∧ (set_position_goal_cartesian_publish_and_wait p
        { s with goal_reached := true, goal_reached_event := true }
        ⟨e.stateEvs, [none]⟩).ret = false
  ∧ (set_position_goal_joint_publish_and_wait v
        { s with goal_reached := true, goal_reached_event := true }
        ⟨e.stateEvs, [none]⟩).ret = false := by
  refine ⟨?_, ?_, rfl, rfl⟩
  · unfold set_position_goal_cartesian_publish_and_wait
    cases hev : (popG e).1 with
    | none => simp [hev]
    | some b => cases b <;> simp [hev]
  · unfold set_position_goal_joint_publish_and_wait
    cases hev : (popG e).1 with
    | none => simp [hev]
    | some b => cases b <;> simp [hev]

/-- Claim C7.  A float list whose length differs from 3 passed to
`move_translation` or `dmove_translation` passes the type check but is
rejected by `__check_list_length` before any conversion or send: the
call returns with only the start log and the length-error print in its
trace, the arm state and environment untouched, and publishes nothing. -/
theorem c7_translation_length_check_rejects (l : List PyNum) (interp : Bool)
    (s : ArmSt) (e : Env)
    (hf : l.all PyNum.isF = true) (hl : l.length ≠ 3) :
    move_translation (.pylist l) interp s e
        = .ok ⟨(), s, e, [Act.logInfo "starting absolute move cartesian translation",
                          Act.printLenErr l.length 3]⟩
  ∧ dmove_translation (.pylist l) interp s e
        = .ok ⟨(), s, e, [Act.logInfo "starting delta move cartesian translation",
                          Act.printLenErr l.length 3]⟩
  ∧ pubsOfE (move_translation (.pylist l) interp s e) = []
  ∧ pubsOfE (dmove_translation (.pylist l) interp s e) = [] := by
  have h1 : move_translation (.pylist l) interp s e
      = .ok ⟨(), s, e, [Act.logInfo "starting absolute move cartesian translation",
                        Act.printLenErr l.length 3]⟩ := by
    simp [move_translation, checkTransOk, hf, hl]
  have h2 : dmove_translation (.pylist l) interp s e
      = .ok ⟨(), s, e, [Act.logInfo "starting delta move cartesian translation",
                        Act.printLenErr l.length 3]⟩ := by
    simp [dmove_translation, checkTransOk, hf, hl]
  refine ⟨h1, h2, ?_, ?_⟩
  · rw [h1]; rfl
  · rw [h2]; rfl

/-- Witness for C7: the length-4 float list `[1.0, 2.0, 3.0, 4.0]`. -/
theorem c7_translation_length_check_rejects_witness :
    ([PyNum.f 1, PyNum.f 2, PyNum.f 3, PyNum.f 4].all PyNum.isF = true)
  ∧ ([PyNum.f 1, PyNum.f 2, PyNum.f 3, PyNum.f 4].length ≠ 3)
  ∧ pubsOfE (move_translation (.pylist [PyNum.f 1, PyNum.f 2, PyNum.f 3, PyNum.f 4])
        true initArm ⟨[], []⟩) = [] :=
  ⟨by decide, by decide,
   (c7_translation_length_check_rejects [PyNum.f 1, PyNum.f 2, PyNum.f 3, PyNum.f 4]
      true initArm ⟨[], []⟩ (by decide) (by decide)).2.2.1⟩

/-- Claim C8.  For any floats `x, y, z`, any interpolation flag, any
desired-pose state and any environment, a translation move given the
list `[x, y, z]` and the same move given `Vector(x, y, z)` publish the
identical outgoing commands (in particular the same pose, i.e. the same
rotation and translation), for both `move_translation` and
`dmove_translation`. -/
theorem c8_list_vector_same_outgoing_command (x y z : ℚ) (interp : Bool)
    (s : ArmSt) (e : Env) :
    pubsOfE (move_translation (.pylist [.f x, .f y, .f z]) interp s e)
        = pubsOfE (move_translation (.vec ⟨x, y, z⟩) interp s e)
  ∧ pubsOfE (dmove_translation (.pylist [.f x, .f y, .f z]) interp s e)
        = pubsOfE (dmove_translation (.vec ⟨x, y, z⟩) interp s e) := by
  constructor
  · rfl
  · simp [dmove_translation, checkTransOk, PyNum.isF, PyNum.val, mkFrameE,
          pubsOfE, pubsOf, List.filter_append, Act.isPublish]

/-- Loop invariant for `home_loop`: the retry loop never publishes, never
logs fatal, performs at most `k` waits, and every wait uses the 20 s
per-attempt timeout. -/
theorem home_loop_props (k : Nat) : ∀ (s : ArmSt) (e : Env),
    (home_loop k s e).tr.filter Act.isPublish = []
  ∧ (home_loop k s e).tr.countP Act.isFatal = 0
  ∧ (home_loop k s e).tr.countP Act.isWait ≤ k
  ∧ ((home_loop k s e).tr.filter Act.isWait).all
        (fun a => decide (a = Act.waitState 20)) = true := by
  induction k with
  | zero => intro s e; simp [home_loop]
  | succ k ih =>
    intro s e
    cases hev : (popS e).1 with
    | none =>
      by_cases hr : s.robot_state = "DVRK_READY"
      · simp [home_loop, hev, hr, Act.isPublish, Act.isFatal, Act.isWait]
      · obtain ⟨h1, h2, h3, h4⟩ := ih { s with robot_state_event := false } (popS e).2
        simp [home_loop, hev, hr, List.filter_append, List.countP_append,
              h1, h2, h4, Act.isPublish, Act.isFatal, Act.isWait]
        omega
    | some st =>
      by_cases hr : st = "DVRK_READY"
      · simp [home_loop, hev, hr, Act.isPublish, Act.isFatal, Act.isWait]
      · obtain ⟨h1, h2, h3, h4⟩ :=
          ih { s with robot_state := st, robot_state_event := false } (popS e).2
        simp [home_loop, hev, hr, List.filter_append, List.countP_append,
              h1, h2, h4, Act.isPublish, Act.isFatal, Act.isWait]
        omega

/-- Claim C4.  `home()` publishes the `Home` state request exactly once
(and publishes nothing else), waits at most 10 times, each wait bounded
by the 20 s per-attempt timeout, and logs exactly one fatal message iff
the final tracked state is not `DVRK_READY` — and, being a total
function, it always returns normally without raising. -/
theorem c4_home_bounded_retry (s : ArmSt) (e : Env) :
    (home s e).tr.filter Act.isPublish = [Act.pubRobotState "Home"]
  ∧ (home s e).tr.countP Act.isWait ≤ 10
  ∧ ((home s e).tr.filter Act.isWait).all (fun a => decide (a = Act.waitState 20)) = true
  ∧ (home s e).tr.countP Act.isFatal
      = (if (home s e).arm.robot_state = "DVRK_READY" then 0 else 1) := by
  obtain ⟨h1, h2, h3, h4⟩ :=
    home_loop_props 10 { s with robot_state_event := false } e
  unfold home
  by_cases hr : (home_loop 10 { s with robot_state_event := false } e).arm.robot_state
      = "DVRK_READY" <;>
    simp [hr, List.filter_append, List.countP_append, h1, h2, h3, h4,
          Act.isPublish, Act.isFatal, Act.isWait]

/-- Claim C3 counterexample.  On a two-joint arm whose desired joint
vector is `[1, 1]`, `move_joint_some([5.0], [0])` publishes `[5, 0]`:
the supplied value is overlaid on a ZERO vector (source line 713), so
joint 1, not listed in the indices, is commanded to 0 instead of keeping
its last desired value 1 — the claim would require the command `[5, 1]`. -/
theorem c3_move_joint_some_ignores_desired_cex :
    pubsOfE (move_joint_some (.arrF [5]) (.arrI [0]) true c3Arm ⟨[], [none]⟩)
        = [Act.pubGoalJoint [5, 0]]
  ∧ pubsOfE (move_joint_some (.arrF [5]) (.arrI [0]) true c3Arm ⟨[], [none]⟩)
        ≠ [Act.pubGoalJoint [5, 1]] := by
  exact ⟨by decide, by decide⟩

/-- Claim C3 as amended.  For a single in-range index (the only calls
that complete: two or more indices raise ValueError, cf. C1), in the
goal-joint state: `dmove_joint_some` behaves as the claim states — it
reads the desired vector, overlays the delta at the index, and sends the
single full result, unlisted joints keeping their desired values — while
`move_joint_some` overlays the supplied value on a ZERO vector, so
unlisted joints are commanded to zero rather than their desired values. -/
theorem c3_indexed_moves_amended (d : List ℚ) (j : Int) (dl v : ℚ) (s : ArmSt) (e : Env)
    (hd : s.position_joint_desired = .vec d)
    (hs : s.robot_state = "DVRK_POSITION_GOAL_JOINT")
    (h0 : 0 ≤ j) (hn : j < (d.length : Int)) :
    pubsOfE (dmove_joint_some (.arrF [dl]) (.arrI [j]) true s e)
        = [Act.pubGoalJoint (d.set j.toNat (d.getD j.toNat 0 + dl))]
  ∧ pubsOfE (move_joint_some (.arrF [v]) (.arrI [j]) true s e)
        = [Act.pubGoalJoint ((List.replicate d.length 0).set j.toNat v)] := by
  have hidx : pyIdx d.length j = .ok j.toNat := by
    unfold pyIdx
    rw [if_pos h0, if_pos hn]
  have hgt : decide (j > (d.length : Int)) = false := decide_eq_false (by omega)
  constructor
  · simp only [dmove_joint_some, hd]
    simp [npGtBool, hgt, dmjs_loop, pyGet, pySet, hidx, pubsOfE, pubsOf,
          List.filter_append, move_joint_impl_pubs_in_goal_state, hs,
          Act.isPublish]
  · simp only [move_joint_some, hd]
    simp [npGtBool, hgt, overlaySet, pySet, List.length_replicate, hidx,
          pubsOfE, pubsOf, List.filter_append,
          move_joint_impl_pubs_in_goal_state, hs, Act.isPublish]

/-- Witness for the amended C3: on `c3Arm` (desired `[1, 1]`),
`dmove_joint_some([2.0], [0])` publishes `[3, 1]` (desired overlaid) and
`move_joint_some([5.0], [0])` publishes `[5, 0]` (zeros overlaid). -/
theorem c3_indexed_moves_amended_witness :
    pubsOfE (dmove_joint_some (.arrF [2]) (.arrI [0]) true c3Arm ⟨[], [none]⟩)
        = [Act.pubGoalJoint [3, 1]]
  ∧ pubsOfE (move_joint_some (.arrF [5]) (.arrI [0]) true c3Arm ⟨[], [none]⟩)
        = [Act.pubGoalJoint [5, 0]] := by
  have h := c3_indexed_moves_amended [1, 1] 0 2 5 c3Arm ⟨[], [none]⟩
      rfl rfl (by decide) (by decide)
  exact ⟨h.1.trans (by norm_num), h.2.trans (by decide)⟩
